import Mathlib

/-!
# Verification of the users-to-clerk migration driver

Shallow embedding of `src/index.ts` (user migration) and `src/index-org.ts`
(organization migration).  The remote Clerk client, the zod validator and the
file system are external collaborators; they enter the model as oracles:

* the result of each `clerkClient.*.create*` call is the next element of a
  `List GwResponse` supplied to the run (an element is consumed per call, so a
  finite list with enough non-429 answers makes the run terminate; `none`
  as a run result means the oracle was exhausted while the driver was still
  retrying, i.e. the run has not completed);
* `userSchema.safeParse` is an arbitrary pure function
  `safeParse : Raw → Except E Val` (zod's `safeParse` is deterministic and
  side-effect free);
* `fs.appendFileSync` of the failure log becomes an append to the `log` list
  carried in the run state;
* `setTimeout` sleeps become `Event.sleep` entries in an event trace carried
  in the run state, so elapsed-time lower bounds are sums over the trace.
-/

namespace ClerkMigration

/-- Run configuration, from the environment (`DELAY_MS`, `RETRY_DELAY_MS`),
in milliseconds.  `src/index.ts` lines 10-11. -/
structure Config where
  DELAY : Nat
  RETRY_DELAY : Nat
deriving Repr, DecidableEq

/-- Result of one remote creation call, as observed by the `catch` block:
either the promise resolves (`created`), or it rejects with an error object
whose `status` field is inspected (`some s`), or with an error carrying no
numeric `status` (`none`) — e.g. a network failure or a thrown `ZodError`. -/
inductive GwResponse where
  | created
  | err (status : Option Nat)
deriving Repr, DecidableEq

/-- What a failure-log entry carries besides the record identifier:
the spread `...error` in `appendLog({ userId: userData._id, ...error })`
is either a zod validation error or a gateway error with its status. -/
inductive ErrorPayload (E : Type) where
  | validation (e : E)
  | gatewayErr (status : Option Nat)
deriving Repr, DecidableEq

/-- One entry appended to `./migration-log-<now>.json`
(`appendLog`, `src/index.ts` lines 94-99). -/
structure LogEntry (Raw E : Type) where
  record : Raw
  payload : ErrorPayload E
deriving Repr, DecidableEq

/-- Observable events of a run, in order: cooldown/retry sleeps, validation
attempts and remote creation calls. -/
inductive Event (Raw : Type) where
  | sleep (ms : Nat)
  | validate (r : Raw)
  | create (r : Raw)
deriving Repr, DecidableEq

/-- The process-wide mutable state of a run: the counters `migrated` and
`alreadyExists` (`src/index.ts` lines 101-102), the failure-log file
contents, the event trace and the list of records the main loop has
entered so far. -/
structure RunState (Raw E : Type) where
  migrated : Nat
  alreadyExists : Nat
  log : List (LogEntry Raw E)
  trace : List (Event Raw)
  processed : List Raw
deriving Repr, DecidableEq

variable {Raw Val E : Type}

/-- The body of the `try` block of `processUserToClerk` from the remote call
onwards, entered only when `safeParse` succeeded (`src/index.ts` lines
111-130).  One gateway response is consumed per attempt: `created`
increments `migrated`; status 422 appends a log entry and increments
`alreadyExists`; status 429 sleeps `RETRY_DELAY` and re-invokes
`processUserToClerk` on the same raw record — since `safeParse` is pure it
succeeds again (emitting another `validate` event) and the next response is
consumed; any other error is logged.  `none` means the response oracle was
exhausted while still rate-limited, i.e. the run has not completed. -/
def attemptCreate (cfg : Config) (u : Raw) :
    List GwResponse → RunState Raw E → Option (RunState Raw E × List GwResponse)
  | [], _st => none
  | GwResponse.created :: rest, st =>
      some ({ st with
              trace := st.trace ++ [Event.validate u, Event.create u],
              migrated := st.migrated + 1 }, rest)
  | GwResponse.err s :: rest, st =>
      if s = some 422 then
        some ({ st with
                trace := st.trace ++ [Event.validate u, Event.create u],
                log := st.log ++ [⟨u, ErrorPayload.gatewayErr s⟩],
                alreadyExists := st.alreadyExists + 1 }, rest)
      else if s = some 429 then
        attemptCreate cfg u rest
          { st with
            trace := st.trace ++
              [Event.validate u, Event.create u, Event.sleep cfg.RETRY_DELAY] }
      else
        some ({ st with
                trace := st.trace ++ [Event.validate u, Event.create u],
                log := st.log ++ [⟨u, ErrorPayload.gatewayErr s⟩] }, rest)

/-- `processUserToClerk` (`src/index.ts` lines 104-131).  Validates the raw
record; on validation failure the thrown `ZodError` has no `status` field,
so the `catch` block falls through to `appendLog` and the loop advances.
On validation success the creation/retry loop `attemptCreate` runs.
Returns the new state and the unconsumed responses. -/
def processUserToClerk (cfg : Config) (safeParse : Raw → Except E Val)
    (userData : Raw) (responses : List GwResponse) (st : RunState Raw E) :
    Option (RunState Raw E × List GwResponse) :=
  match safeParse userData with
  | Except.error e =>
      some ({ st with
              trace := st.trace ++ [Event.validate userData],
              log := st.log ++ [⟨userData, ErrorPayload.validation e⟩] },
            responses)
  | Except.ok _ => attemptCreate cfg userData responses st

/-- The `for (const userData of offsetUsers)` loop in `main`
(`src/index.ts` lines 159-165): for each record, first `await cooldown()`
(a `DELAY`-ms sleep), then `processUserToClerk`. -/
def mainLoop (cfg : Config) (safeParse : Raw → Except E Val) :
    List Raw → List GwResponse → RunState Raw E →
    Option (RunState Raw E × List GwResponse)
  | [], responses, st => some (st, responses)
  | userData :: rest, responses, st =>
      (processUserToClerk cfg safeParse userData responses
          { st with
            trace := st.trace ++ [Event.sleep cfg.DELAY],
            processed := st.processed ++ [userData] }).bind
        (fun p => mainLoop cfg safeParse rest p.2 p.1)

/-- Counters zero, log empty: the state at process start
(`src/index.ts` lines 101-102). -/
def initialState : RunState Raw E :=
  { migrated := 0, alreadyExists := 0, log := [], trace := [], processed := [] }

/-- `main` (`src/index.ts` lines 141-169): reads the input array, applies
`.slice(OFFSET)` (for the non-negative offsets the spec talks about this is
`List.drop`), and runs the loop from the zeroed counters.  The result is the
final run state, or `none` when the run never completes. -/
def main (cfg : Config) (safeParse : Raw → Except E Val) (OFFSET : Nat)
    (users : List Raw) (responses : List GwResponse) :
    Option (RunState Raw E) :=
  (mainLoop cfg safeParse (users.drop OFFSET) responses initialState).map Prod.fst

/-- The two `console.log` lines printed after `main` resolves
(`src/index.ts` lines 171-174), as (value, label) pairs. -/
def summaryLines (st : RunState Raw E) : List (Nat × String) :=
  [(st.migrated, "users migrated"), (st.alreadyExists, "users failed to upload")]

/-- A log entry written by the 422 branch (the AlreadyExists bucket). -/
def LogEntry.isAlreadyExists (e : LogEntry Raw E) : Bool :=
  match e.payload with
  | ErrorPayload.validation _ => false
  | ErrorPayload.gatewayErr s => s = some 422

/-- A log entry recording a permanent failure: a validation error or a
gateway error whose status is neither 422 nor (unreachable in the log) 429. -/
def LogEntry.isPermanentFailure (e : LogEntry Raw E) : Bool :=
  match e.payload with
  | ErrorPayload.validation _ => true
  | ErrorPayload.gatewayErr s => ¬ s = some 422

/-- Number of permanent-failure entries in a log. -/
def permFailCount (log : List (LogEntry Raw E)) : Nat :=
  (log.filter LogEntry.isPermanentFailure).length

/-- Number of AlreadyExists entries in a log. -/
def alreadyExistsCount (log : List (LogEntry Raw E)) : Nat :=
  (log.filter LogEntry.isAlreadyExists).length

/-- Total milliseconds spent in `setTimeout` sleeps along a trace. -/
def sleptTotal (tr : List (Event Raw)) : Nat :=
  match tr with
  | [] => 0
  | Event.sleep ms :: rest => ms + sleptTotal rest
  | _ :: rest => sleptTotal rest

/-- Remote-creation calls recorded in a trace. -/
def createCalls (tr : List (Event Raw)) : List Raw :=
  match tr with
  | [] => []
  | Event.create r :: rest => r :: createCalls rest
  | _ :: rest => createCalls rest

/-! ## Startup configuration checks (`src/index.ts` lines 9-25, identical in
`src/index-org.ts`) -/

/-- JS truthiness of `!SECRET_KEY` for `string | undefined`: true when the
environment variable is unset or set to the empty string. -/
def keyFalsy (CLERK_SECRET_KEY : Option String) : Bool :=
  match CLERK_SECRET_KEY with
  | none => true
  | some s => s.isEmpty

/-- JS `String.prototype.split` with a one-character separator, on the
character list: splitting the empty string yields `[""]`, adjacent
separators yield empty chunks, a trailing separator yields a trailing
empty chunk — exactly the JS semantics needed for `split("_")`. -/
def splitSep (sep : Char) : List Char → List (List Char)
  | [] => [[]]
  | c :: rest =>
    match splitSep sep rest with
    | [] => if c = sep then [[], [c]] else [[c]]
    | g :: gs => if c = sep then [] :: g :: gs else (c :: g) :: gs

/-- JS `s.split(sep)` for a one-character separator. -/
def jsSplit (s : String) (sep : Char) : List String :=
  (splitSep sep s.toList).map List.asString

/-- `SECRET_KEY.split("_")[1] !== "live"`: JS `split` on `"_"`, index 1
(`undefined` when there is no second chunk, and `undefined !== "live"`). -/
def keyNotLive (SECRET_KEY : String) : Bool :=
  ¬ (jsSplit SECRET_KEY ('_'))[1]? = some ("live")

/-- The two top-level `throw new Error` guards that run before `main`
(`src/index.ts` lines 15-25): abort when the key is falsy, or when the key
does not look like a `live` key while `IMPORT_TO_DEV_INSTANCE`
(defaulting to `"false"` when unset, line 12) equals `"false"`. -/
def startupCheck (CLERK_SECRET_KEY IMPORT_TO_DEV_INSTANCE : Option String) :
    Except String Unit :=
  let IMPORT_TO_DEV := IMPORT_TO_DEV_INSTANCE.getD ("false")
  match CLERK_SECRET_KEY with
  | none => Except.error ("CLERK_SECRET_KEY is required")
  | some SECRET_KEY =>
    if SECRET_KEY.isEmpty then Except.error ("CLERK_SECRET_KEY is required")
    else if keyNotLive SECRET_KEY && IMPORT_TO_DEV = ("false") then
      Except.error ("development instance")
    else Except.ok ()

/-- The whole process: the module-level config guards run first; only if they
pass is `main` reached (so no record is read or processed on a guard
failure — the input file and responses are not examined). -/
def program (cfg : Config) (safeParse : Raw → Except E Val)
    (CLERK_SECRET_KEY IMPORT_TO_DEV_INSTANCE : Option String) (OFFSET : Nat)
    (users : List Raw) (responses : List GwResponse) :
    Except String (Option (RunState Raw E)) :=
  match startupCheck CLERK_SECRET_KEY IMPORT_TO_DEV_INSTANCE with
  | Except.error e => Except.error e
  | Except.ok _ => Except.ok (main cfg safeParse OFFSET users responses)

/-! ## User field mapping (`src/index.ts` lines 27-91) -/

/-- The `_id: { $oid: string }` object of a record. -/
structure MongoId where
  oid : String
deriving Repr, DecidableEq

/-- A record accepted by `userSchema` (`src/index.ts` lines 27-42):
required `_id` and `email`, the rest optional. -/
structure User where
  _id : MongoId
  email : String
  first_name : Option String
  last_name : Option String
  phone : Option String
  password : Option String
  organization_id : Option String
  locale : Option String
  mobile_organization_id : Option String
  role_id : Option String
  super_admin : Option Bool
deriving Repr, DecidableEq

/-- `privateMetaData` (`src/index.ts` lines 57-61). -/
structure PrivateMetaData where
  mongoId : MongoId
  organizationId : Option String
  mobileOrganizationId : Option String
deriving Repr, DecidableEq

/-- `publicMetadata` (`src/index.ts` lines 62-66), with the defaults applied
by `??`. -/
structure PublicMetadata where
  roleId : String
  locale : String
  superAdmin : Bool
deriving Repr, DecidableEq

/-- The argument object passed to `clerkClient.users.createUser`
(`src/index.ts` lines 71-90).  `password = none` and
`skipPasswordRequirement = none` stand for the field being absent from the
object literal. -/
structure CreateUserRequest where
  externalId : String
  emailAddress : List String
  firstName : Option String
  lastName : Option String
  privateMetadata : PrivateMetaData
  publicMetadata : PublicMetadata
  password : Option String
  skipPasswordRequirement : Option Bool
deriving Repr, DecidableEq

/-- The ternary condition on `src/index.ts` lines 68-70:
`userData.password && userData.password.length >= 8 &&
userData.password.startsWith("123")` — JS truthiness makes `undefined`
and `""` falsy. -/
def passwordUsable (password : Option String) : Bool :=
  match password with
  | none => false
  | some p => ¬ p.isEmpty && decide (8 ≤ p.length) && p.startsWith ("123")

/-- `createUser` (`src/index.ts` lines 46-91): builds the request object;
when the legacy password is usable it is forwarded, otherwise the user is
created with `skipPasswordRequirement: true` and no password. -/
def createUser (userData : User) : CreateUserRequest :=
  let externalId := userData._id.oid
  let privateMetaData : PrivateMetaData :=
    { mongoId := userData._id,
      organizationId := userData.organization_id,
      mobileOrganizationId := userData.mobile_organization_id }
  let publicMetadata : PublicMetadata :=
    { roleId := userData.role_id.getD ("5be5659706b068f4f1f2dd53"),
      locale := userData.locale.getD ("sv"),
      superAdmin := userData.super_admin.getD false }
  if passwordUsable userData.password then
    { externalId := externalId,
      emailAddress := [userData.email],
      firstName := userData.first_name,
      lastName := userData.last_name,
      privateMetadata := privateMetaData,
      publicMetadata := publicMetadata,
      password := userData.password,
      skipPasswordRequirement := none }
  else
    { externalId := externalId,
      emailAddress := [userData.email],
      firstName := userData.first_name,
      lastName := userData.last_name,
      privateMetadata := privateMetaData,
      publicMetadata := publicMetadata,
      password := none,
      skipPasswordRequirement := some true }

/-! ## Organization path (`src/index-org.ts` lines 27-70) -/

/-- A record accepted by `organizationSchema`
(`src/index-org.ts` lines 27-33). -/
structure Organization where
  _id : MongoId
  organization_name : String
  email : String
deriving Repr, DecidableEq

/-- An element of the list returned by `clerkClient.users.getUserList`. -/
structure ClerkUser where
  id : String
deriving Repr, DecidableEq

/-- Outcome of the external `getUserList` call inside `getUserByEmail`:
either it resolves with a list of users, or it rejects. -/
inductive LookupOutcome where
  | ok (users : List ClerkUser)
  | err
deriving Repr, DecidableEq

/-- `getUserByEmail` (`src/index-org.ts` lines 55-70): returns the first
matching user's id, the empty string when there is no match, and — via the
`catch` — the empty string again when the lookup rejects.  The return type
is `String`, not `Except`: no error propagates to the caller. -/
def getUserByEmail (outcome : LookupOutcome) : String :=
  match outcome with
  | LookupOutcome.err => ""
  | LookupOutcome.ok users =>
      match users with
      | [] => ""
      | user :: _ => user.id

/-- `privateMetaData` of `createOrganization`
(`src/index-org.ts` lines 42-45). -/
structure OrgPrivateMetaData where
  mongoId : MongoId
  external_id : String
deriving Repr, DecidableEq

/-- The argument object passed to `clerkClient.organizations.createOrganization`
(`src/index-org.ts` lines 47-52). -/
structure CreateOrgRequest where
  name : String
  createdBy : String
  privateMetadata : OrgPrivateMetaData
deriving Repr, DecidableEq

/-- `createOrganization` (`src/index-org.ts` lines 37-53), with the outcome
of the embedded `getUserByEmail` lookup supplied as an oracle: the request is
always built and issued, whatever the lookup did. -/
def createOrganization (organizationData : Organization)
    (lookup : LookupOutcome) : CreateOrgRequest :=
  let externalId := organizationData._id.oid
  let createdBy := getUserByEmail lookup
  { name := organizationData.organization_name,
    createdBy := createdBy,
    privateMetadata := { mongoId := organizationData._id,
                         external_id := externalId } }

/-! ## Helper lemmas: branch equations of the driver -/

theorem process_parseFail (cfg : Config) (sp : Raw → Except E Val) (u : Raw)
    (e : E) (h : sp u = Except.error e) (responses : List GwResponse)
    (st : RunState Raw E) :
    processUserToClerk cfg sp u responses st =
      some ({ st with
              trace := st.trace ++ [Event.validate u],
              log := st.log ++ [⟨u, ErrorPayload.validation e⟩] }, responses) := by
  simp [processUserToClerk, h]

theorem process_ok (cfg : Config) (sp : Raw → Except E Val) (u : Raw) (v : Val)
    (h : sp u = Except.ok v) (responses : List GwResponse) (st : RunState Raw E) :
    processUserToClerk cfg sp u responses st = attemptCreate cfg u responses st := by
  simp [processUserToClerk, h]

theorem attempt_nil (cfg : Config) (u : Raw) (st : RunState Raw E) :
    attemptCreate cfg u [] st = none := rfl

theorem attempt_created (cfg : Config) (u : Raw) (rest : List GwResponse)
    (st : RunState Raw E) :
    attemptCreate cfg u (GwResponse.created :: rest) st =
      some ({ st with
              trace := st.trace ++ [Event.validate u, Event.create u],
              migrated := st.migrated + 1 }, rest) := rfl

theorem attempt_422 (cfg : Config) (u : Raw) (rest : List GwResponse)
    (st : RunState Raw E) :
    attemptCreate cfg u (GwResponse.err (some 422) :: rest) st =
      some ({ st with
              trace := st.trace ++ [Event.validate u, Event.create u],
              log := st.log ++ [⟨u, ErrorPayload.gatewayErr (some 422)⟩],
              alreadyExists := st.alreadyExists + 1 }, rest) := by
  simp [attemptCreate]

theorem attempt_429 (cfg : Config) (u : Raw) (rest : List GwResponse)
    (st : RunState Raw E) :
    attemptCreate cfg u (GwResponse.err (some 429) :: rest) st =
      attemptCreate cfg u rest
        { st with
          trace := st.trace ++
            [Event.validate u, Event.create u, Event.sleep cfg.RETRY_DELAY] } := by
  simp [attemptCreate]

theorem attempt_other (cfg : Config) (u : Raw) (s : Option Nat)
    (h422 : ¬ s = some 422) (h429 : ¬ s = some 429) (rest : List GwResponse)
    (st : RunState Raw E) :
    attemptCreate cfg u (GwResponse.err s :: rest) st =
      some ({ st with
              trace := st.trace ++ [Event.validate u, Event.create u],
              log := st.log ++ [⟨u, ErrorPayload.gatewayErr s⟩] }, rest) := by
  simp [attemptCreate, h422, h429]

theorem mainLoop_nil (cfg : Config) (sp : Raw → Except E Val)
    (responses : List GwResponse) (st : RunState Raw E) :
    mainLoop cfg sp [] responses st = some (st, responses) := rfl

theorem mainLoop_cons (cfg : Config) (sp : Raw → Except E Val) (u : Raw)
    (l : List Raw) (responses : List GwResponse) (st : RunState Raw E) :
    mainLoop cfg sp (u :: l) responses st =
      (processUserToClerk cfg sp u responses
          { st with
            trace := st.trace ++ [Event.sleep cfg.DELAY],
            processed := st.processed ++ [u] }).bind
        (fun p => mainLoop cfg sp l p.2 p.1) := rfl

/-! ## Helper lemmas: trace and log bookkeeping -/

theorem sleptTotal_append (a b : List (Event Raw)) :
    sleptTotal (a ++ b) = sleptTotal a + sleptTotal b := by
  induction a with
  | nil => simp [sleptTotal]
  | cons e rest ih =>
    cases e with
    | sleep ms => simp [sleptTotal, ih]; omega
    | validate r => simp [sleptTotal, ih]
    | create r => simp [sleptTotal, ih]

theorem createCalls_append (a b : List (Event Raw)) :
    createCalls (a ++ b) = createCalls a ++ createCalls b := by
  induction a with
  | nil => simp [createCalls]
  | cons e rest ih => cases e <;> simp [createCalls, ih]

theorem permFailCount_append (a b : List (LogEntry Raw E)) :
    permFailCount (a ++ b) = permFailCount a + permFailCount b := by
  simp [permFailCount, List.filter_append]

theorem alreadyExistsCount_append (a b : List (LogEntry Raw E)) :
    alreadyExistsCount (a ++ b) = alreadyExistsCount a + alreadyExistsCount b := by
  simp [alreadyExistsCount, List.filter_append]


theorem attempt_spec (cfg : Config) (u : Raw) :
    ∀ (responses : List GwResponse) (st st' : RunState Raw E)
      (rest : List GwResponse),
      attemptCreate cfg u responses st = some (st', rest) →
      st'.migrated + st'.alreadyExists + permFailCount st'.log
          = st.migrated + st.alreadyExists + permFailCount st.log + 1
      ∧ st'.alreadyExists + alreadyExistsCount st.log
          = st.alreadyExists + alreadyExistsCount st'.log
      ∧ st'.processed = st.processed
      ∧ ∃ tr, st'.trace = st.trace ++ Event.validate u :: tr := by
  intro responses
  induction responses with
  | nil =>
    intro st st' rest h
    simp [attemptCreate] at h
  | cons r rs ih =>
    intro st st' rest h
    cases r with
    | created =>
      rw [attempt_created] at h
      simp only [Option.some.injEq, Prod.mk.injEq] at h
      obtain ⟨h1, h2⟩ := h
      subst h1
      refine ⟨by simp; omega, by simp, by simp, [Event.create u], by simp⟩
    | err s =>
      by_cases h422 : s = some 422
      · subst h422
        rw [attempt_422] at h
        simp only [Option.some.injEq, Prod.mk.injEq] at h
        obtain ⟨h1, h2⟩ := h
        subst h1
        refine ⟨?_, ?_, by simp, [Event.create u], by simp⟩
        · simp [permFailCount_append, permFailCount,
                LogEntry.isPermanentFailure]
          omega
        · simp [alreadyExistsCount_append, alreadyExistsCount,
                LogEntry.isAlreadyExists]
          omega
      · by_cases h429 : s = some 429
        · subst h429
          rw [attempt_429] at h
          obtain ⟨hsum, hae, hproc, tr, htr⟩ := ih _ _ _ h
          refine ⟨by simpa using hsum, by simpa using hae, by simpa using hproc,
                  Event.create u :: Event.sleep cfg.RETRY_DELAY :: Event.validate u :: tr, ?_⟩
          simp at htr
          simp [htr]
        · rw [attempt_other cfg u s h422 h429] at h
          simp only [Option.some.injEq, Prod.mk.injEq] at h
          obtain ⟨h1, h2⟩ := h
          subst h1
          refine ⟨?_, ?_, by simp, [Event.create u], by simp⟩
          · simp [permFailCount_append, permFailCount,
                  LogEntry.isPermanentFailure, h422]
            omega
          · simp [alreadyExistsCount_append, alreadyExistsCount,
                  LogEntry.isAlreadyExists, h422]


theorem process_spec (cfg : Config) (sp : Raw → Except E Val) (u : Raw)
    (responses : List GwResponse) (st st' : RunState Raw E)
    (rest : List GwResponse)
    (h : processUserToClerk cfg sp u responses st = some (st', rest)) :
    st'.migrated + st'.alreadyExists + permFailCount st'.log
        = st.migrated + st.alreadyExists + permFailCount st.log + 1
    ∧ st'.alreadyExists + alreadyExistsCount st.log
        = st.alreadyExists + alreadyExistsCount st'.log
    ∧ st'.processed = st.processed
    ∧ ∃ tr, st'.trace = st.trace ++ Event.validate u :: tr := by
  cases hp : sp u with
  | error e =>
    rw [process_parseFail cfg sp u e hp] at h
    simp only [Option.some.injEq, Prod.mk.injEq] at h
    obtain ⟨h1, h2⟩ := h
    subst h1
    refine ⟨?_, ?_, by simp, [], by simp⟩
    · simp [permFailCount_append, permFailCount, LogEntry.isPermanentFailure]
      omega
    · simp [alreadyExistsCount_append, alreadyExistsCount,
            LogEntry.isAlreadyExists]
  | ok v =>
    rw [process_ok cfg sp u v hp] at h
    exact attempt_spec cfg u responses st st' rest h

theorem mainLoop_spec (cfg : Config) (sp : Raw → Except E Val) :
    ∀ (l : List Raw) (responses : List GwResponse) (st st' : RunState Raw E)
      (rest : List GwResponse),
      mainLoop cfg sp l responses st = some (st', rest) →
      st'.migrated + st'.alreadyExists + permFailCount st'.log
          = st.migrated + st.alreadyExists + permFailCount st.log + l.length
      ∧ st'.alreadyExists + alreadyExistsCount st.log
          = st.alreadyExists + alreadyExistsCount st'.log
      ∧ st'.processed = st.processed ++ l
      ∧ ∃ tr, st'.trace = st.trace ++ tr
          ∧ l.length * cfg.DELAY ≤ sleptTotal tr := by
  intro l
  induction l with
  | nil =>
    intro responses st st' rest h
    rw [mainLoop_nil] at h
    simp only [Option.some.injEq, Prod.mk.injEq] at h
    obtain ⟨h1, h2⟩ := h
    subst h1
    exact ⟨by simp, by simp, by simp, [], by simp [sleptTotal]⟩
  | cons u ls ih =>
    intro responses st st' rest h
    rw [mainLoop_cons] at h
    cases hpz : processUserToClerk cfg sp u responses
        { st with
          trace := st.trace ++ [Event.sleep cfg.DELAY],
          processed := st.processed ++ [u] } with
    | none => rw [hpz] at h; simp at h
    | some p =>
      rw [hpz] at h
      simp only [Option.some_bind] at h
      obtain ⟨hsum1, hae1, hproc1, tr0, htr0⟩ :=
        process_spec cfg sp u responses _ p.1 p.2 hpz
      obtain ⟨hsum2, hae2, hproc2, tr1, htr1, hslept1⟩ := ih p.2 p.1 st' rest h
      simp only at hsum1 hae1 hproc1 htr0
      refine ⟨?_, ?_, ?_, ?_⟩
      · simp only [List.length_cons]
        omega
      · omega
      · simp only [hproc2, hproc1]
        simp
      · refine ⟨Event.sleep cfg.DELAY :: Event.validate u :: (tr0 ++ tr1), ?_, ?_⟩
        · rw [htr1, htr0]
          simp
        · simp only [sleptTotal, sleptTotal_append]
          have hmul : (u :: ls).length * cfg.DELAY
              = ls.length * cfg.DELAY + cfg.DELAY := by
            simp [Nat.succ_mul]
          rw [hmul]
          omega


theorem mainLoop_segments (cfg : Config) (sp : Raw → Except E Val) :
    ∀ (l : List Raw) (responses : List GwResponse) (st st' : RunState Raw E)
      (rest : List GwResponse),
      mainLoop cfg sp l responses st = some (st', rest) →
      ∃ segs : List (List (Event Raw)),
        st'.trace = st.trace ++ segs.flatten
        ∧ segs.length = l.length
        ∧ ∀ (i : Nat) (u : Raw), l[i]? = some u →
            ∃ tr0, segs[i]? = some (Event.sleep cfg.DELAY ::
                                      Event.validate u :: tr0) := by
  intro l
  induction l with
  | nil =>
    intro responses st st' rest h
    rw [mainLoop_nil] at h
    simp only [Option.some.injEq, Prod.mk.injEq] at h
    obtain ⟨h1, h2⟩ := h
    subst h1
    exact ⟨[], by simp, by simp, by intro i u hu; simp at hu⟩
  | cons u ls ih =>
    intro responses st st' rest h
    rw [mainLoop_cons] at h
    cases hpz : processUserToClerk cfg sp u responses
        { st with
          trace := st.trace ++ [Event.sleep cfg.DELAY],
          processed := st.processed ++ [u] } with
    | none => rw [hpz] at h; simp at h
    | some p =>
      rw [hpz] at h
      simp only [Option.some_bind] at h
      obtain ⟨_, _, _, tr0, htr0⟩ :=
        process_spec cfg sp u responses _ p.1 p.2 hpz
      simp only at htr0
      obtain ⟨segs, hjoin, hlen, hidx⟩ := ih p.2 p.1 st' rest h
      refine ⟨(Event.sleep cfg.DELAY :: Event.validate u :: tr0) :: segs,
              ?_, by simp [hlen], ?_⟩
      · rw [hjoin, htr0]
        simp
      · intro i v hv
        cases i with
        | zero =>
          simp only [List.getElem?_cons_zero, Option.some.injEq] at hv
          subst hv
          exact ⟨tr0, by simp⟩
        | succ j =>
          simp only [List.getElem?_cons_succ] at hv ⊢
          exact hidx j v hv

/-- The event-trace segment produced by one call of `processUserToClerk` on
a record that validates and whose creation returns status 429 exactly `m`
times before succeeding: one validation and one creation call per attempt,
with one `RETRY_DELAY` sleep between consecutive attempts. -/
def retryTrace (u : Raw) (rd : Nat) : Nat → List (Event Raw)
  | 0 => [Event.validate u, Event.create u]
  | m + 1 => Event.validate u :: Event.create u :: Event.sleep rd ::
      retryTrace u rd m

theorem createCalls_retryTrace (u : Raw) (rd : Nat) :
    ∀ m, createCalls (retryTrace u rd m) = List.replicate (m + 1) u := by
  intro m
  induction m with
  | zero => simp [retryTrace, createCalls]
  | succ k ih =>
    simp [retryTrace, createCalls, ih, List.replicate_succ]

theorem sleptTotal_retryTrace (u : Raw) (rd : Nat) :
    ∀ m, sleptTotal (retryTrace u rd m) = m * rd := by
  intro m
  induction m with
  | zero => simp [retryTrace, sleptTotal]
  | succ k ih =>
    simp [retryTrace, sleptTotal, ih, Nat.succ_mul]
    omega

theorem attempt_retry_created (cfg : Config) (u : Raw) :
    ∀ (m : Nat) (rest : List GwResponse) (st : RunState Raw E),
      attemptCreate cfg u
          (List.replicate m (GwResponse.err (some 429)) ++
            GwResponse.created :: rest) st
        = some ({ st with
                  migrated := st.migrated + 1,
                  trace := st.trace ++ retryTrace u cfg.RETRY_DELAY m }, rest) := by
  intro m
  induction m with
  | zero =>
    intro rest st
    simp only [List.replicate, List.nil_append]
    rw [attempt_created]
    simp [retryTrace]
  | succ k ih =>
    intro rest st
    simp only [List.replicate_succ, List.cons_append]
    rw [attempt_429]
    rw [ih]
    simp [retryTrace]


theorem permFailCount_nil : permFailCount ([] : List (LogEntry Raw E)) = 0 := rfl

theorem alreadyExistsCount_nil :
    alreadyExistsCount ([] : List (LogEntry Raw E)) = 0 := rfl

theorem main_spec (cfg : Config) (sp : Raw → Except E Val) (OFFSET : Nat)
    (users : List Raw) (responses : List GwResponse) (st : RunState Raw E)
    (h : main cfg sp OFFSET users responses = some st) :
    st.migrated + st.alreadyExists + permFailCount st.log
        = (users.drop OFFSET).length
    ∧ st.alreadyExists = alreadyExistsCount st.log
    ∧ st.processed = users.drop OFFSET
    ∧ (users.drop OFFSET).length * cfg.DELAY ≤ sleptTotal st.trace
    ∧ ∃ segs : List (List (Event Raw)),
        st.trace = segs.flatten
        ∧ segs.length = (users.drop OFFSET).length
        ∧ ∀ (i : Nat) (u : Raw), (users.drop OFFSET)[i]? = some u →
            ∃ tr0, segs[i]? = some (Event.sleep cfg.DELAY ::
                                      Event.validate u :: tr0) := by
  unfold main at h
  cases hml : mainLoop cfg sp (users.drop OFFSET) responses initialState with
  | none => rw [hml] at h; simp at h
  | some p =>
    rw [hml] at h
    simp only [Option.map_some', Option.some.injEq] at h
    subst h
    obtain ⟨hsum, hae, hproc, tr, htr, hslept⟩ :=
      mainLoop_spec cfg sp (users.drop OFFSET) responses initialState
        p.1 p.2 hml
    obtain ⟨segs, hjoin, hlen, hidx⟩ :=
      mainLoop_segments cfg sp (users.drop OFFSET) responses initialState
        p.1 p.2 hml
    simp only [initialState] at hsum hae hproc htr hjoin
    simp only [permFailCount_nil, alreadyExistsCount_nil,
      List.nil_append] at hsum hae hproc
    refine ⟨by omega, by omega, hproc, ?_, segs, by simpa using hjoin,
            hlen, hidx⟩
    rw [htr]
    simpa [sleptTotal] using hslept


/-! ## Claim theorems -/

/-- C1: for every run over an input of `n` records with offset `k` that
completes normally, the migrated counter plus the already-exists counter
plus the number of permanent-failure log entries equals `n - k`: each
processed record lands in exactly one of the three buckets. -/
theorem run_bucket_partition (cfg : Config) (sp : Raw → Except E Val)
    (OFFSET : Nat) (users : List Raw) (responses : List GwResponse)
    (st : RunState Raw E)
    (h : main cfg sp OFFSET users responses = some st) :
    st.migrated + st.alreadyExists + permFailCount st.log
      = users.length - OFFSET := by
  have hs := (main_spec cfg sp OFFSET users responses st h).1
  simpa [List.length_drop] using hs

/-- C2: a record that validates and whose creation returns status 429
exactly `m` times before succeeding is retried after a `RETRY_DELAY` sleep
each time, with the same record, for any number `m` of rate-limit answers
(no backoff: every sleep is the fixed `RETRY_DELAY`), and the migrated
counter is incremented exactly once, when the retry finally succeeds; the
log and the already-exists counter are untouched. -/
theorem rateLimit_retry_until_success (cfg : Config) (sp : Raw → Except E Val)
    (u : Raw) (v : Val) (h : sp u = Except.ok v) (m : Nat)
    (rest : List GwResponse) (st : RunState Raw E) :
    processUserToClerk cfg sp u
        (List.replicate m (GwResponse.err (some 429)) ++
          GwResponse.created :: rest) st
      = some ({ st with
                migrated := st.migrated + 1,
                trace := st.trace ++ retryTrace u cfg.RETRY_DELAY m }, rest)
    ∧ createCalls (retryTrace u cfg.RETRY_DELAY m) = List.replicate (m + 1) u
    ∧ sleptTotal (retryTrace u cfg.RETRY_DELAY m) = m * cfg.RETRY_DELAY := by
  refine ⟨?_, createCalls_retryTrace u cfg.RETRY_DELAY m,
          sleptTotal_retryTrace u cfg.RETRY_DELAY m⟩
  rw [process_ok cfg sp u v h]
  exact attempt_retry_created cfg u m rest st

/-- C3: a record that validates and whose creation returns status 422 is
never retried (exactly one creation call appears in the trace and exactly
one response is consumed), the already-exists counter is incremented
exactly once, exactly one entry is appended to the failure log, and the
driver returns so the loop advances to the next record. -/
theorem conflict_logged_once_no_retry (cfg : Config) (sp : Raw → Except E Val)
    (u : Raw) (v : Val) (h : sp u = Except.ok v)
    (rest : List GwResponse) (st : RunState Raw E) :
    processUserToClerk cfg sp u (GwResponse.err (some 422) :: rest) st
      = some ({ st with
                trace := st.trace ++ [Event.validate u, Event.create u],
                log := st.log ++ [⟨u, ErrorPayload.gatewayErr (some 422)⟩],
                alreadyExists := st.alreadyExists + 1 }, rest)
    ∧ (⟨u, ErrorPayload.gatewayErr (some 422)⟩ : LogEntry Raw E).isAlreadyExists
        = true := by
  refine ⟨?_, by simp [LogEntry.isAlreadyExists]⟩
  rw [process_ok cfg sp u v h, attempt_422]

/-- C4: a record that fails schema validation never reaches the remote
creation call (no `create` event is added and no gateway response is
consumed), is classified as a permanent failure with exactly one log entry
carrying the validation error, leaves both counters unchanged, and the
driver returns so the loop advances. -/
theorem validation_failure_skips_creation (cfg : Config)
    (sp : Raw → Except E Val) (u : Raw) (e : E) (h : sp u = Except.error e)
    (responses : List GwResponse) (st : RunState Raw E) :
    processUserToClerk cfg sp u responses st
      = some ({ st with
                trace := st.trace ++ [Event.validate u],
                log := st.log ++ [⟨u, ErrorPayload.validation e⟩] }, responses)
    ∧ createCalls (st.trace ++ [Event.validate u]) = createCalls st.trace
    ∧ (⟨u, ErrorPayload.validation e⟩ : LogEntry Raw E).isPermanentFailure
        = true := by
  refine ⟨process_parseFail cfg sp u e h responses st, ?_, rfl⟩
  simp [createCalls_append, createCalls]

/-- C5: a completed run with offset `k` over `n` records processes exactly
the records at indices `k..n-1`, in source order; an offset `k ≥ n`
processes zero records, ends in the pristine initial state and still
prints a summary with both counts zero. -/
theorem offset_suffix_processing (cfg : Config) (sp : Raw → Except E Val)
    (OFFSET : Nat) (users : List Raw) (responses : List GwResponse)
    (st : RunState Raw E)
    (h : main cfg sp OFFSET users responses = some st) :
    st.processed = users.drop OFFSET
    ∧ st.processed.length = users.length - OFFSET
    ∧ (∀ i : Nat, st.processed[i]? = users[OFFSET + i]?)
    ∧ (users.length ≤ OFFSET →
        st = initialState
        ∧ summaryLines st = [(0, "users migrated"),
                             (0, "users failed to upload")]) := by
  obtain ⟨-, -, hproc, -, -⟩ := main_spec cfg sp OFFSET users responses st h
  refine ⟨hproc, by simp [hproc, List.length_drop], ?_, ?_⟩
  · intro i
    rw [hproc]
    exact List.getElem?_drop users OFFSET i
  · intro hle
    have hdrop : users.drop OFFSET = [] := by
      simpa using List.drop_eq_nil_of_le hle
    unfold main at h
    rw [hdrop, mainLoop_nil] at h
    simp only [Option.map_some', Option.some.injEq] at h
    subst h
    exact ⟨rfl, rfl⟩

/-- C6: after a completed run the process prints exactly two summary
lines, the migrated counter labeled `users migrated` and, labeled
`users failed to upload`, the already-exists counter — which equals the
number of AlreadyExists (status 422) log entries, not the number of
permanent failures. -/
theorem summary_reports_alreadyExists_bucket (cfg : Config)
    (sp : Raw → Except E Val) (OFFSET : Nat) (users : List Raw)
    (responses : List GwResponse) (st : RunState Raw E)
    (h : main cfg sp OFFSET users responses = some st) :
    summaryLines st = [(st.migrated, "users migrated"),
                       (st.alreadyExists, "users failed to upload")]
    ∧ (summaryLines st).length = 2
    ∧ st.alreadyExists = alreadyExistsCount st.log
    ∧ (summaryLines st)[1]? = some (alreadyExistsCount st.log,
                                    "users failed to upload") := by
  obtain ⟨-, hae, -, -, -⟩ := main_spec cfg sp OFFSET users responses st h
  exact ⟨rfl, rfl, hae, by simp [summaryLines, hae]⟩

/-- C8: in a completed run the throttle sleep happens before each record's
validation — the trace is a concatenation of per-record segments, each
beginning with a `DELAY` sleep followed by that record's first validation
(including the very first record) — and the total slept time is at least
the number of processed records times `DELAY`. -/
theorem throttle_before_each_record (cfg : Config) (sp : Raw → Except E Val)
    (OFFSET : Nat) (users : List Raw) (responses : List GwResponse)
    (st : RunState Raw E)
    (h : main cfg sp OFFSET users responses = some st) :
    (users.drop OFFSET).length * cfg.DELAY ≤ sleptTotal st.trace
    ∧ ∃ segs : List (List (Event Raw)),
        st.trace = segs.flatten
        ∧ segs.length = (users.drop OFFSET).length
        ∧ ∀ (i : Nat) (u : Raw), (users.drop OFFSET)[i]? = some u →
            ∃ tr0, segs[i]? = some (Event.sleep cfg.DELAY ::
                                      Event.validate u :: tr0) := by
  obtain ⟨-, -, -, hslept, hsegs⟩ :=
    main_spec cfg sp OFFSET users responses st h
  exact ⟨hslept, hsegs⟩


/-- C7: startup succeeds iff the credential is present (JS-truthy, i.e. not
unset and not empty) and either looks like a `live` credential or the
import-to-dev flag is set to something other than the string `false`
(unset defaults to `false`); on any guard failure the process errors out
before `main`, independently of the input records and gateway responses. -/
theorem startup_guard_before_records (cfg : Config) (sp : Raw → Except E Val)
    (k f : Option String) (OFFSET : Nat) (users : List Raw)
    (responses : List GwResponse) :
    (startupCheck k f = Except.ok () ↔
      keyFalsy k = false ∧
        ∀ s, k = some s →
          (keyNotLive s = false ∨ ¬ f.getD ("false") = "false"))
    ∧ (∀ e, startupCheck k f = Except.error e →
        ∀ (users2 : List Raw) (responses2 : List GwResponse),
          program cfg sp k f OFFSET users2 responses2
            = Except.error e)
    ∧ (startupCheck k f = Except.ok () →
        program cfg sp k f OFFSET users responses
          = Except.ok (main cfg sp OFFSET users responses)) := by
  refine ⟨?_, ?_, ?_⟩
  · cases k with
    | none => simp [startupCheck, keyFalsy]
    | some s =>
      by_cases he : s.isEmpty
      · simp [startupCheck, keyFalsy, he]
      · by_cases hnl : keyNotLive s
        · by_cases hf : f.getD ("false") = "false"
          · simp [startupCheck, keyFalsy, he, hnl, hf]
          · simp [startupCheck, keyFalsy, he, hnl, hf]
        · simp [startupCheck, keyFalsy, he, hnl]
  · intro e he users2 responses2
    simp [program, he]
  · intro hok
    simp [program, hok]

/-- C9: the organization path's creator lookup never propagates an error —
`getUserByEmail` returns the empty string (the unset-creator sentinel) both
when the lookup rejects and when no user matches — and `createOrganization`
still builds and issues the creation request for the record, with its
`createdBy` field degraded to the empty string instead of the record being
aborted. -/
theorem creator_lookup_never_propagates (org : Organization)
    (outcome : LookupOutcome)
    (h : outcome = LookupOutcome.err ∨ outcome = LookupOutcome.ok []) :
    getUserByEmail outcome = ""
    ∧ createOrganization org outcome
        = { name := org.organization_name,
            createdBy := "",
            privateMetadata := { mongoId := org._id,
                                 external_id := org._id.oid } } := by
  rcases h with h | h
  · subst h; exact ⟨rfl, rfl⟩
  · subst h; exact ⟨rfl, rfl⟩

/-- C10: the creation request carries the record's legacy password exactly
when that password is usable — present, at least 8 characters long and
starting with `123` — and in every other case the request carries no
password and sets `skipPasswordRequirement: true`. -/
theorem password_forwarded_iff_usable (u : User) :
    (createUser u).password
        = (if passwordUsable u.password then u.password else none)
    ∧ (createUser u).skipPasswordRequirement
        = (if passwordUsable u.password then none else some true)
    ∧ (passwordUsable u.password = true ↔
        ∃ p, u.password = some p ∧ 8 ≤ p.length
          ∧ p.startsWith ("123") = true) := by
  refine ⟨?_, ?_, ?_⟩
  · by_cases hp : passwordUsable u.password <;> simp [createUser, hp]
  · by_cases hp : passwordUsable u.password <;> simp [createUser, hp]
  · cases hpw : u.password with
    | none => simp [passwordUsable]
    | some p =>
      simp only [passwordUsable, Bool.and_eq_true, decide_eq_true_eq,
        Option.some.injEq]
      constructor
      · rintro ⟨⟨hne, hlen⟩, hstart⟩
        exact ⟨p, rfl, hlen, hstart⟩
      · rintro ⟨q, hq, hlen, hstart⟩
        cases hq
        refine ⟨⟨?_, hlen⟩, hstart⟩
        intro hempty
        rw [String.isEmpty_iff] at hempty
        subst hempty
        simp at hlen


/-! ## Concrete witnesses

A small concrete run used to exercise the theorems: records are `Nat`,
validation rejects odd records, and the gateway answers
created / (429 then created) / 422 in turn.  Record 0 is created, record 1
fails validation, record 2 is rate-limited once and then created, record 3
already exists. -/

def cfgW : Config := { DELAY := 2, RETRY_DELAY := 5 }

def spW : Nat → Except Unit Unit :=
  fun n => if n % 2 = 1 then Except.error () else Except.ok ()

def usersW : List Nat := [0, 1, 2, 3]

def respW : List GwResponse :=
  [GwResponse.created, GwResponse.err (some 429), GwResponse.created,
   GwResponse.err (some 422)]

/-- The initial state at the witness types. -/
def initW : RunState Nat Unit := initialState

def stW : RunState Nat Unit :=
  (main cfgW spW 0 usersW respW).getD initW

def stW5 : RunState Nat Unit :=
  (main cfgW spW 5 usersW []).getD initW

def orgW : Organization :=
  { _id := { oid := "64a0" }, organization_name := "Acme",
    email := "a@b.example" }

theorem run_bucket_partition_witness :
    stW.migrated + stW.alreadyExists + permFailCount stW.log
      = usersW.length - 0 :=
  run_bucket_partition cfgW spW 0 usersW respW stW rfl

theorem rateLimit_retry_witness :
    processUserToClerk cfgW spW 0
        (List.replicate 2 (GwResponse.err (some 429)) ++
          GwResponse.created :: []) initW
      = some ({ initW with
                migrated := initW.migrated + 1,
                trace := initW.trace ++
                  retryTrace 0 cfgW.RETRY_DELAY 2 }, []) :=
  (rateLimit_retry_until_success cfgW spW 0 () rfl 2 [] initW).1

theorem conflict_logged_once_witness :
    processUserToClerk cfgW spW 0 (GwResponse.err (some 422) :: []) initW
      = some ({ initW with
                trace := initW.trace ++
                  [Event.validate 0, Event.create 0],
                log := initW.log ++
                  [⟨0, ErrorPayload.gatewayErr (some 422)⟩],
                alreadyExists := initW.alreadyExists + 1 }, []) :=
  (conflict_logged_once_no_retry cfgW spW 0 () rfl [] initW).1

theorem validation_failure_witness :
    processUserToClerk cfgW spW 1 respW initW
      = some ({ initW with
                trace := initW.trace ++ [Event.validate 1],
                log := initW.log ++
                  [⟨1, ErrorPayload.validation ()⟩] }, respW) :=
  (validation_failure_skips_creation cfgW spW 1 () rfl respW initW).1

theorem offset_suffix_witness :
    stW5 = initialState
    ∧ summaryLines stW5 = [(0, "users migrated"),
                           (0, "users failed to upload")] :=
  (offset_suffix_processing cfgW spW 5 usersW [] stW5 rfl).2.2.2
    (by decide)

theorem summary_witness :
    summaryLines stW = [(stW.migrated, "users migrated"),
                        (stW.alreadyExists, "users failed to upload")]
    ∧ (summaryLines stW).length = 2
    ∧ stW.alreadyExists = alreadyExistsCount stW.log
    ∧ (summaryLines stW)[1]? = some (alreadyExistsCount stW.log,
                                     "users failed to upload") :=
  summary_reports_alreadyExists_bucket cfgW spW 0 usersW respW stW rfl

theorem startup_guard_witness :
    program cfgW spW (some ("sk_test_x")) none 0 usersW respW
      = Except.error ("development instance") :=
  (startup_guard_before_records cfgW spW (some ("sk_test_x")) none 0
      usersW respW).2.1 ("development instance") rfl usersW respW

theorem throttle_witness :
    (usersW.drop 0).length * cfgW.DELAY ≤ sleptTotal stW.trace :=
  (throttle_before_each_record cfgW spW 0 usersW respW stW rfl).1

theorem creator_lookup_witness :
    getUserByEmail LookupOutcome.err = ""
    ∧ createOrganization orgW LookupOutcome.err
        = { name := orgW.organization_name,
            createdBy := "",
            privateMetadata := { mongoId := orgW._id,
                                 external_id := orgW._id.oid } } :=
  creator_lookup_never_propagates orgW LookupOutcome.err (Or.inl rfl)

end ClerkMigration
